import Mathlib

/-!
Verification of the qjs C++ binding layer (src/quickjs.cpp, src/quickjs.hpp)
against its natural-language specification.

The binding wraps an embeddable scripting engine. The binding code itself
(the qjs::Value, qjs::Exception, qjs::Runtime, qjs::Context member
functions) is embedded shallowly and faithfully below. The engine the
binding calls into (the JS_* primitives) is repository code that is not
under src/, so those primitives are modelled from the specification; each
such definition carries a doc comment starting with "Modelled from the
spec:". Machine integers are modelled as Nat/Int with explicit wrapping
where it matters; byte strings as lists of Nat; engine values and heap
objects as explicit state records threaded through every operation.
-/

set_option autoImplicit false

namespace QjsConv

/-- Engine value for the conversion / exception model. `vobjNoNum` stands
for an object of a type the engine cannot convert to a number; `vexc` is
the engine exception-marker value; `verr` is the error object the engine
stores as the pending exception when a coercion fails; `vnull` is the
engine null value (what a pending-exception fetch yields when no exception
is pending, i.e. the empty / no-exception state). -/
inductive JV where
  | vnull : JV
  | vbool (b : Bool) : JV
  | vint (n : Int) : JV
  | vstr (bytes : List Nat) : JV
  | vobjNoNum : JV
  | verr : JV
  | vexc : JV
deriving DecidableEq, Repr

/-- Per-context engine state visible to the conversion protocol: the
pending-exception slot. -/
structure CState where
  pending : Option JV
deriving DecidableEq, Repr

/-- Result of a fallible conversion, mirroring qjs::Result (quickjs.hpp
line 62): either a converted value or a captured exception value. -/
inductive Res (α : Type) where
  | ok (a : α) : Res α
  | exc (e : JV) : Res α
deriving DecidableEq, Repr

/-- Whether a Res is the Exception case. -/
def Res.isExc {α : Type} : Res α → Bool
  | .ok _ => false
  | .exc _ => true

/-- Modelled from the spec: JS_GetException is missing from src/. It
returns the pending exception (null when none is pending) and clears the
pending-exception state, so a fetch consumes the exception. The binding
wraps it as qjs::Context::get_exception (quickjs.cpp lines 200-203). -/
def get_exception (s : CState) : JV × CState :=
  (s.pending.getD .vnull, { pending := none })

/-- Wrap an Int into signed 32-bit range, as the engine int32 lane does. -/
def wrap32 (n : Int) : Int := (n + 2 ^ 31) % 2 ^ 32 - 2 ^ 31

/-- Wrap an Int into signed 64-bit range. -/
def wrap64 (n : Int) : Int := (n + 2 ^ 63) % 2 ^ 64 - 2 ^ 63

/-- Modelled from the spec: JS_ToBool is missing from src/. Result triple
is (status code, converted value, state); status -1 reports failure, which
stores an error object in the pending-exception slot. Only the exception
marker fails to convert to bool. -/
def JS_ToBool (s : CState) (v : JV) : Int × Bool × CState :=
  match v with
  | .vexc => (-1, false, { pending := some .verr })
  | .vnull => (0, false, s)
  | .vbool b => (0, b, s)
  | .vint n => (0, decide (n ≠ 0), s)
  | .vstr bytes => (0, decide (bytes ≠ []), s)
  | .vobjNoNum => (0, true, s)
  | .verr => (0, true, s)

/-- Modelled from the spec: JS_ToInt32 is missing from src/. A value of a
type the engine cannot convert (an object with no numeric conversion, or
the exception marker) makes the coercion fail: status -1, out-value left
zero, and an error object stored as the pending exception. -/
def JS_ToInt32 (s : CState) (v : JV) : Int × Int × CState :=
  match v with
  | .vnull => (0, 0, s)
  | .vbool b => (0, if b then 1 else 0, s)
  | .vint n => (0, wrap32 n, s)
  | .vstr _ => (0, 0, s)
  | _ => (-1, 0, { pending := some .verr })

/-- Modelled from the spec: JS_ToUint32 is missing from src/. Same failure
discipline as JS_ToInt32; successful values wrap into unsigned 32-bit
range. -/
def JS_ToUint32 (s : CState) (v : JV) : Int × Int × CState :=
  match v with
  | .vnull => (0, 0, s)
  | .vbool b => (0, if b then 1 else 0, s)
  | .vint n => (0, n % 2 ^ 32, s)
  | .vstr _ => (0, 0, s)
  | _ => (-1, 0, { pending := some .verr })

/-- Modelled from the spec: JS_ToInt64 is missing from src/. -/
def JS_ToInt64 (s : CState) (v : JV) : Int × Int × CState :=
  match v with
  | .vnull => (0, 0, s)
  | .vbool b => (0, if b then 1 else 0, s)
  | .vint n => (0, wrap64 n, s)
  | .vstr _ => (0, 0, s)
  | _ => (-1, 0, { pending := some .verr })

/-- Modelled from the spec: JS_ToIndex is missing from src/. An index is
non-negative with an engine-defined upper bound (2 ^ 53 - 1); values out
of that range fail as well. -/
def JS_ToIndex (s : CState) (v : JV) : Int × Int × CState :=
  match v with
  | .vnull => (0, 0, s)
  | .vbool b => (0, if b then 1 else 0, s)
  | .vint n =>
      if n < 0 ∨ 2 ^ 53 - 1 < n then (-1, 0, { pending := some .verr })
      else (0, n, s)
  | .vstr _ => (0, 0, s)
  | _ => (-1, 0, { pending := some .verr })

/-- Modelled from the spec: JS_ToFloat64 is missing from src/. The claim
under verification concerns only the success-or-exception protocol, so the
float lane is modelled over the integer contents of the value. -/
def JS_ToFloat64 (s : CState) (v : JV) : Int × Int × CState :=
  match v with
  | .vnull => (0, 0, s)
  | .vbool b => (0, if b then 1 else 0, s)
  | .vint n => (0, n, s)
  | .vstr _ => (0, 0, s)
  | _ => (-1, 0, { pending := some .verr })

/-- Modelled from the spec: JS_ToBigInt64 is missing from src/. -/
def JS_ToBigInt64 (s : CState) (v : JV) : Int × Int × CState :=
  match v with
  | .vint n => (0, wrap64 n, s)
  | .vbool b => (0, if b then 1 else 0, s)
  | _ => (-1, 0, { pending := some .verr })

/-- Modelled from the spec: JS_ToInt64Ext is missing from src/. The
lenient 64-bit lane accepts a broader input set than the strict one; here
it additionally accepts null and strings the strict bigint lane refuses. -/
def JS_ToInt64Ext (s : CState) (v : JV) : Int × Int × CState :=
  match v with
  | .vnull => (0, 0, s)
  | .vbool b => (0, if b then 1 else 0, s)
  | .vint n => (0, wrap64 n, s)
  | .vstr _ => (0, 0, s)
  | _ => (-1, 0, { pending := some .verr })

/-- The single pattern every scalar conversion of qjs::Context follows
(quickjs.cpp lines 276-353): invoke the engine coercion; on status -1
fetch the pending exception and return it as the Exception case; otherwise
return the converted value. Each of the eight embeddings below reduces
definitionally to this combinator. -/
def convImpl {α : Type} (prim : CState → JV → Int × α × CState)
    (s : CState) (v : JV) : Res α × CState :=
  let r := prim s v
  if r.1 = -1 then
    let e := get_exception r.2.2
    (.exc e.1, e.2)
  else
    (.ok r.2.1, r.2.2)

/-- qjs::Context::to_bool, quickjs.cpp lines 276-283. -/
def to_bool (s : CState) (val : JV) : Res Bool × CState :=
  convImpl JS_ToBool s val

/-- qjs::Context::to_int32, quickjs.cpp lines 285-293. -/
def to_int32 (s : CState) (val : JV) : Res Int × CState :=
  convImpl JS_ToInt32 s val

/-- qjs::Context::to_uint32, quickjs.cpp lines 295-303. -/
def to_uint32 (s : CState) (val : JV) : Res Int × CState :=
  convImpl JS_ToUint32 s val

/-- qjs::Context::to_int64, quickjs.cpp lines 305-313. -/
def to_int64 (s : CState) (val : JV) : Res Int × CState :=
  convImpl JS_ToInt64 s val

/-- qjs::Context::to_index, quickjs.cpp lines 315-323. -/
def to_index (s : CState) (val : JV) : Res Int × CState :=
  convImpl JS_ToIndex s val

/-- qjs::Context::to_float64, quickjs.cpp lines 325-333. -/
def to_float64 (s : CState) (val : JV) : Res Int × CState :=
  convImpl JS_ToFloat64 s val

/-- qjs::Context::to_bigint64, quickjs.cpp lines 335-343. -/
def to_bigint64 (s : CState) (val : JV) : Res Int × CState :=
  convImpl JS_ToBigInt64 s val

/-- qjs::Context::to_int64_ext, quickjs.cpp lines 345-353. -/
def to_int64_ext (s : CState) (val : JV) : Res Int × CState :=
  convImpl JS_ToInt64Ext s val

/-- The protocol obeyed by the conversion pattern: the Exception case is
returned exactly when the engine reports failure; in that case the
returned exception is the pending exception of the post-coercion state
(fetched at that moment) and the resulting state has the pending slot
cleared; on success the converted value and post-coercion state are
returned unchanged. -/
def ConvSpec {α : Type} (prim : CState → JV → Int × α × CState)
    (impl : CState → JV → Res α × CState) (s : CState) (v : JV) : Prop :=
  ((impl s v).1.isExc = true ↔ (prim s v).1 = -1) ∧
  ((prim s v).1 = -1 →
    (impl s v).1 = .exc ((prim s v).2.2.pending.getD .vnull) ∧
    (impl s v).2.pending = none) ∧
  ((prim s v).1 ≠ -1 → impl s v = (.ok (prim s v).2.1, (prim s v).2.2))

theorem convImpl_spec {α : Type} (prim : CState → JV → Int × α × CState)
    (s : CState) (v : JV) : ConvSpec prim (convImpl prim) s v := by
  unfold ConvSpec convImpl get_exception
  by_cases h : (prim s v).1 = -1 <;>
    simp [h, Res.isExc]

/-- Claim C4: every Context scalar conversion (to_bool, to_int32,
to_uint32, to_int64, to_index, to_float64, to_bigint64, to_int64_ext)
returns the Exception case exactly when the engine coercion reports
failure, and then the Exception is the pending exception fetched at that
moment, the fetch clearing the pending-exception state (single
consumption); otherwise the converted value is returned as the success
case. -/
theorem conversions_follow_result_protocol (s : CState) (v : JV) :
    ConvSpec JS_ToBool to_bool s v ∧
    ConvSpec JS_ToInt32 to_int32 s v ∧
    ConvSpec JS_ToUint32 to_uint32 s v ∧
    ConvSpec JS_ToInt64 to_int64 s v ∧
    ConvSpec JS_ToIndex to_index s v ∧
    ConvSpec JS_ToFloat64 to_float64 s v ∧
    ConvSpec JS_ToBigInt64 to_bigint64 s v ∧
    ConvSpec JS_ToInt64Ext to_int64_ext s v :=
  ⟨convImpl_spec JS_ToBool s v, convImpl_spec JS_ToInt32 s v,
   convImpl_spec JS_ToUint32 s v, convImpl_spec JS_ToInt64 s v,
   convImpl_spec JS_ToIndex s v, convImpl_spec JS_ToFloat64 s v,
   convImpl_spec JS_ToBigInt64 s v, convImpl_spec JS_ToInt64Ext s v⟩

/-- Witness for claim C4: on a fresh context and an object with no
numeric conversion, the int32 coercion reports failure, to_int32 returns
the pending error object as the Exception case, and the resulting state
has no pending exception; on the integer 7 the coercion succeeds and
to_int32 returns it as the success case. -/
theorem conversions_follow_result_protocol_witness :
    ((JS_ToInt32 ⟨none⟩ .vobjNoNum).1 = -1 ∧
      (to_int32 ⟨none⟩ .vobjNoNum).1 =
        .exc ((JS_ToInt32 ⟨none⟩ .vobjNoNum).2.2.pending.getD .vnull) ∧
      (to_int32 ⟨none⟩ .vobjNoNum).2.pending = none) ∧
    ((JS_ToInt32 ⟨none⟩ (.vint 7)).1 ≠ -1 ∧
      to_int32 ⟨none⟩ (.vint 7) =
        (.ok (JS_ToInt32 ⟨none⟩ (.vint 7)).2.1,
          (JS_ToInt32 ⟨none⟩ (.vint 7)).2.2)) :=
  ⟨⟨by decide,
    ((conversions_follow_result_protocol ⟨none⟩ .vobjNoNum).2.1.2.1
      (by decide))⟩,
   ⟨by decide,
    ((conversions_follow_result_protocol ⟨none⟩ (.vint 7)).2.1.2.2
      (by decide))⟩⟩

/-- Claim C6, counterexample: after to_int32 on an inconvertible object
has yielded the Exception case, the pending-exception fetch performed
immediately afterwards returns the engine null value, i.e. the
empty / no-exception state, not a non-empty error value as the claim
states: the conversion itself already consumed the pending exception. -/
theorem fetch_after_failed_conversion_is_empty :
    (to_int32 ⟨none⟩ .vobjNoNum).1 = .exc .verr ∧
    (get_exception (to_int32 ⟨none⟩ .vobjNoNum).2).1 = .vnull ∧
    .vnull ≠ (.verr : JV) := by
  decide

/-- Claim C6 as amended: when a scalar coercion the engine cannot perform
yields the Exception case, that Exception case itself carries the
non-empty error value that the conversion fetched from the
pending-exception state, and a pending-exception fetch performed
afterwards yields the empty / no-exception state (single consumption). -/
theorem failed_conversion_consumes_exception (s : CState) (v : JV)
    (h : (JS_ToInt32 s v).1 = -1) :
    (to_int32 s v).1 = .exc .verr ∧ (.verr : JV) ≠ .vnull ∧
    (get_exception (to_int32 s v).2).1 = .vnull := by
  cases v <;> simp_all [to_int32, convImpl, JS_ToInt32, get_exception]

/-- Witness for the amended claim C6 at the concrete inconvertible
object. -/
theorem failed_conversion_consumes_exception_witness :
    (JS_ToInt32 ⟨none⟩ .vobjNoNum).1 = -1 ∧
    ((to_int32 ⟨none⟩ .vobjNoNum).1 = .exc .verr ∧ (.verr : JV) ≠ .vnull ∧
      (get_exception (to_int32 ⟨none⟩ .vobjNoNum).2).1 = .vnull) :=
  ⟨by decide, failed_conversion_consumes_exception ⟨none⟩ .vobjNoNum (by decide)⟩

/-- Modelled from the spec: JS_NewStringLen is missing from src/. It
builds an engine string from an explicit byte count, so embedded zero
bytes are kept; only the first len bytes of the buffer are read. -/
def JS_NewStringLen (s : CState) (bytes : List Nat) (len : Nat) : JV :=
  .vstr (bytes.take len)

/-- qjs::Context::new_string, quickjs.cpp lines 355-358: passes the whole
buffer of the host string together with its explicit size. -/
def new_string (s : CState) (str : List Nat) : JV :=
  JS_NewStringLen s str str.length

/-- Modelled from the spec: JS_ToCStringLen is missing from src/. It
yields a length-qualified byte view of the string value. -/
def JS_ToCStringLen (s : CState) (v : JV) : List Nat × Nat :=
  match v with
  | .vstr b => (b, b.length)
  | _ => ([], 0)

/-- qjs::Context::to_std_string, quickjs.cpp lines 375-381: requests a
length-qualified C-string view and copies out exactly len bytes. -/
def to_std_string (s : CState) (val : JV) : List Nat :=
  let r := JS_ToCStringLen s val
  r.1.take r.2

/-- Claim C7: for every byte sequence s, including sequences containing
embedded zero bytes, to_std_string (new_string s) = s. -/
theorem string_round_trip (st : CState) (s : List Nat) :
    to_std_string st (new_string st s) = s := by
  simp [to_std_string, new_string, JS_NewStringLen, JS_ToCStringLen]

end QjsConv

namespace QjsThread

/-- Per-thread registration state for the closure-carrier native class:
the thread_local class id qjs::Context::closure_class (quickjs.cpp line
173, zero when not yet allocated), the engine class-id allocator, and how
many times the carrier class has been registered with the engine. -/
structure TState where
  closure_class : Nat
  nextClassId : Nat
  registered : Nat
deriving DecidableEq, Repr

/-- The fresh state of a thread: closure_class is zero-initialised, the
engine allocator hands out nonzero ids starting at 1, and no registration
has happened. -/
def initialThread : TState :=
  { closure_class := 0, nextClassId := 1, registered := 0 }

/-- qjs::Context::Context(JSContext*), quickjs.cpp lines 175-196,
restricted to its effect on the per-thread registration state: when
closure_class is still zero, JS_NewClassID allocates a fresh nonzero class
id into it (modelled from the spec, the allocator being engine code
missing from src/) and JS_NewClass registers the carrier class definition
(name, finalizer, GC-mark callback) with the engine; otherwise nothing
happens. -/
def Context.construct (t : TState) : TState :=
  if t.closure_class = 0 then
    { closure_class := t.nextClassId, nextClassId := t.nextClassId + 1,
      registered := t.registered + 1 }
  else t

theorem construct_fixed (t : TState) (h : t.closure_class ≠ 0) :
    Context.construct t = t := by
  simp [Context.construct, h]

theorem construct_iterate (n : Nat) :
    Context.construct^[n + 1] initialThread =
      Context.construct initialThread := by
  induction n with
  | zero => rfl
  | succ m ih =>
      rw [Function.iterate_succ_apply' , ih]
      exact construct_fixed _ (by decide)

/-- Claim C8: on each thread, the closure-carrier native class is
registered exactly once, during the first Context construction on that
thread (n = 0 constructions register nothing, n ≥ 1 register once), and
every subsequent Context construction leaves the whole per-thread
registration state unchanged, performing no further class-id allocation
or class registration. -/
theorem closure_class_registered_once (n : Nat) :
    (Context.construct^[n] initialThread).registered = min n 1 ∧
    Context.construct^[n + 1] initialThread =
      Context.construct initialThread := by
  refine ⟨?_, construct_iterate n⟩
  cases n with
  | zero => rfl
  | succ m =>
      rw [construct_iterate m]
      simp [Context.construct, initialThread]

end QjsThread

namespace QjsRuntime

/-- Host-visible engine bookkeeping for runtimes: the allocator for fresh
runtime instances and, per runtime, how many times JS_FreeRuntime has been
called on it. -/
structure RState where
  nextRt : Nat
  freeCount : Nat → Nat

/-- qjs::Runtime, quickjs.hpp lines 99-113: owns a Runtime_Ref whose only
member is the raw engine runtime pointer. -/
structure Runtime where
  m_runtime : Nat
deriving DecidableEq, Repr

/-- qjs::Runtime::Runtime, quickjs.cpp line 159: wraps a fresh engine
runtime (JS_NewRuntime modelled from the spec as allocating a fresh
instance, that primitive being engine code missing from src/). -/
def Runtime.create (s : RState) : Runtime × RState :=
  (⟨s.nextRt⟩, { s with nextRt := s.nextRt + 1 })

/-- qjs::Runtime::Runtime(Runtime&&) = default, quickjs.hpp line 105: the
defaulted move constructor moves the Runtime_Ref member, which for a raw
pointer is a plain copy; the moved-from object keeps its pointer
unchanged. Returns (moved-to, moved-from after the move). -/
def Runtime.moveFrom (r : Runtime) : Runtime × Runtime :=
  (⟨r.m_runtime⟩, r)

/-- qjs::Runtime::~Runtime, quickjs.cpp lines 161-163: unconditionally
calls JS_FreeRuntime on the held pointer (modelled as bumping that
runtime instance's free counter). -/
def Runtime.destroy (s : RState) (r : Runtime) : RState :=
  { s with freeCount := fun i =>
      if i = r.m_runtime then s.freeCount i + 1 else s.freeCount i }

/-- A fresh runtime bookkeeping state. -/
def rinit : RState := ⟨0, fun _ => 0⟩

/-- The states a and b reach after: Runtime a; Runtime b = std::move(a);
then both destructors run at scope exit. -/
def moveScenario : RState :=
  let p := Runtime.create rinit
  let m := Runtime.moveFrom p.1
  let s2 := Runtime.destroy p.2 m.1
  Runtime.destroy s2 m.2

/-- Claim C9 fails on the code: after moving a Runtime and destroying both
the moved-to and the moved-from object, the underlying engine runtime
instance has been freed twice, not exactly once, because the defaulted
move constructor copies the raw pointer without clearing the source and
the destructor frees unconditionally. -/
theorem runtime_move_double_free : moveScenario.freeCount 0 = 2 := by
  rfl

end QjsRuntime

namespace QjsProp

/-- Engine value for the property model: a number, a reference to a heap
object, or undefined. -/
inductive JSV where
  | vnum (n : Nat) : JSV
  | vobj (o : Nat) : JSV
  | vundefined : JSV
deriving DecidableEq, Repr

/-- Engine heap state for the property model: string-keyed and
index-keyed property tables per object, the per-object extensible flag,
per-object reference counts with a per-object release counter, and the
pending-exception flag a failed coercion raises. -/
structure PState where
  propsS : Nat → String → Option JSV
  propsI : Nat → Nat → Option JSV
  extensible : Nat → Bool
  refcount : Nat → Nat
  releases : Nat → Nat
  pendingExc : Bool

/-- Modelled from the spec: JS_DupValue is missing from src/. Duplicating
a reference increments the referent's refcount; non-object values are not
reference counted. -/
def dupV (s : PState) : JSV → PState
  | .vobj o =>
      { s with refcount := fun i =>
          if i = o then s.refcount i + 1 else s.refcount i }
  | _ => s

/-- Modelled from the spec: JS_FreeValue is missing from src/. Releasing
a reference decrements the referent's refcount and counts as one release
of that object; non-object values are not reference counted. -/
def freeV (s : PState) : JSV → PState
  | .vobj o =>
      { s with
        refcount := fun i =>
          if i = o then s.refcount i - 1 else s.refcount i,
        releases := fun i =>
          if i = o then s.releases i + 1 else s.releases i }
  | _ => s

/-- A qjs::Value handle in the property model: the engine value it owns.
Its destructor (quickjs.cpp lines 15-17) releases that value. -/
structure Value where
  m_value : JSV
deriving DecidableEq, Repr

/-- qjs::Value::~Value, quickjs.cpp lines 15-17. -/
def Value.destroy (s : PState) (v : Value) : PState :=
  freeV s v.m_value

/-- Modelled from the spec: JS_HasProperty (with the atom interning and
release around it, quickjs.cpp lines 65-70) is missing from src/; it
reports whether the object has the named property. -/
def has_property (s : PState) (o : Nat) (prop : String) : Bool :=
  (s.propsS o prop).isSome

/-- Modelled from the spec: JS_GetPropertyStr is missing from src/;
reading an absent property yields undefined. -/
def JS_GetPropertyStr (s : PState) (o : Nat) (prop : String) : JSV :=
  (s.propsS o prop).getD .vundefined

/-- Modelled from the spec: JS_GetPropertyUint32 is missing from src/. -/
def JS_GetPropertyUint32 (s : PState) (o : Nat) (idx : Nat) : JSV :=
  (s.propsI o idx).getD .vundefined

/-- qjs::Value::get_property(const std::string&), quickjs.cpp lines
25-31: none when has_property is false, else the property value. -/
def get_property_str (s : PState) (o : Nat) (prop : String) : Option JSV :=
  if ¬ has_property s o prop then none
  else some (JS_GetPropertyStr s o prop)

/-- Modelled from the spec: the JS_ToUint32 coercion applied to a heap
object (a value of a type the engine cannot convert to a number) fails:
status -1, out-parameter left zero, pending exception raised. The
numeric coercion primitive itself is engine code missing from src/. -/
def JS_ToUint32_obj (s : PState) (o : Nat) : Int × Nat × PState :=
  (-1, 0, { s with pendingExc := true })

/-- qjs::Value::get_property(uint32_t), quickjs.cpp lines 33-47: refuses
the lookup when the receiver has no length property; otherwise it fetches
length, but then passes m_value, i.e. the receiver object itself, to
JS_ToUint32 and compares idx against that conversion's out-value. -/
def get_property_idx (s : PState) (o : Nat) (idx : Nat) :
    Option JSV × PState :=
  if ¬ has_property s o "length" then (none, s)
  else
    match get_property_str s o "length" with
    | some _ =>
        let r := JS_ToUint32_obj s o
        if r.2.1 ≤ idx then (none, r.2.2)
        else (some (JS_GetPropertyUint32 r.2.2 o idx), r.2.2)
    | none => (some (JS_GetPropertyUint32 s o idx), s)

/-- qjs::Value::is_extensible, quickjs.cpp lines 72-74 (JS_IsExtensible
modelled from the spec as the per-object flag, the primitive being engine
code missing from src/). -/
def is_extensible (s : PState) (o : Nat) : Bool :=
  s.extensible o

/-- qjs::Value::prevent_extensions, quickjs.cpp lines 76-78. -/
def prevent_extensions (s : PState) (o : Nat) : PState :=
  { s with extensible := fun i => if i = o then false else s.extensible i }

/-- Modelled from the spec: JS_SetPropertyStr is missing from src/. The
write stores the value under the name; the stored reference is the
object's own duplicate of the caller's value, so the caller-owned
reference is borrowed, not consumed. -/
def JS_SetPropertyStr (s : PState) (o : Nat) (prop : String) (val : JSV) :
    PState :=
  let s1 := dupV s val
  { s1 with propsS := fun i p =>
      if i = o ∧ p = prop then some val else s1.propsS i p }

/-- Modelled from the spec: JS_SetPropertyUint32 is missing from src/;
same borrowing write, index-keyed. -/
def JS_SetPropertyUint32 (s : PState) (o : Nat) (idx : Nat) (val : JSV) :
    PState :=
  let s1 := dupV s val
  { s1 with propsI := fun i p =>
      if i = o ∧ p = idx then some val else s1.propsI i p }

/-- qjs::Value::set_property(const std::string&, const Value&),
quickjs.cpp lines 49-55: refuse with false when the receiver is not
extensible, else write and return true. -/
def set_property_str (s : PState) (o : Nat) (prop : String) (val : Value) :
    Bool × PState :=
  if ¬ is_extensible s o then (false, s)
  else (true, JS_SetPropertyStr s o prop val.m_value)

/-- qjs::Value::set_property(uint32_t, const Value&), quickjs.cpp lines
57-63. -/
def set_property_idx (s : PState) (o : Nat) (idx : Nat) (val : Value) :
    Bool × PState :=
  if ¬ is_extensible s o then (false, s)
  else (true, JS_SetPropertyUint32 s o idx val.m_value)

/-- A concrete heap for claim C3: object 0 carries a numeric length
property of value 5 and an element at index 3, and is inconvertible to a
number like every plain object. -/
def c3state : PState :=
  { propsS := fun o p =>
      if o = 0 ∧ p = "length" then some (.vnum 5) else none,
    propsI := fun o i => if o = 0 ∧ i = 3 then some (.vnum 42) else none,
    extensible := fun _ => true,
    refcount := fun o => if o = 0 then 1 else 0,
    releases := fun _ => 0,
    pendingExc := false }

/-- Claim C3 fails on the code: object 0 exposes a numeric length
property of value 5 and stores an element at index 3 < 5, yet
get_property(3) returns none, because the code passes the receiver object
rather than the fetched length value to JS_ToUint32, so the bound it
compares against is the conversion's zeroed out-value, not 5. -/
theorem get_property_idx_wrong_bound :
    c3state.propsS 0 "length" = some (.vnum 5) ∧ 3 < 5 ∧
    c3state.propsI 0 3 = some (.vnum 42) ∧
    (get_property_idx c3state 0 3).1 = none := by
  refine ⟨rfl, by decide, rfl, ?_⟩
  rfl

theorem set_property_refuses_when_not_extensible (s : PState) (o : Nat)
    (prop : String) (idx : Nat) (val : Value)
    (h : is_extensible s o = false) :
    set_property_str s o prop val = (false, s) ∧
    set_property_idx s o idx val = (false, s) := by
  simp [set_property_str, set_property_idx, h]

theorem set_property_writes_when_extensible (s : PState) (o : Nat)
    (prop : String) (idx : Nat) (val : Value)
    (h : is_extensible s o = true) :
    (set_property_str s o prop val).1 = true ∧
    get_property_str (set_property_str s o prop val).2 o prop =
      some val.m_value ∧
    (set_property_idx s o idx val).1 = true ∧
    JS_GetPropertyUint32 (set_property_idx s o idx val).2 o idx =
      val.m_value := by
  refine ⟨by simp [set_property_str, h], ?_, by simp [set_property_idx, h], ?_⟩
  · simp [set_property_str, h, get_property_str, has_property,
      JS_GetPropertyStr, JS_SetPropertyStr]
  · simp [set_property_idx, h, JS_GetPropertyUint32, JS_SetPropertyUint32]

/-- Claim C5: for every handle and every name or index key, set_property
on a non-extensible receiver returns false and performs no mutation at
all (so any subsequent get_property shows the attempted value was not
stored), and on an extensible receiver it performs the write and returns
true (so the written value is observable afterwards). -/
theorem set_property_extensibility (s : PState) (o : Nat) (prop : String)
    (idx : Nat) (val : Value) :
    (is_extensible s o = false →
      set_property_str s o prop val = (false, s) ∧
      set_property_idx s o idx val = (false, s) ∧
      get_property_str (set_property_str s o prop val).2 o prop =
        get_property_str s o prop) ∧
    (is_extensible s o = true →
      (set_property_str s o prop val).1 = true ∧
      get_property_str (set_property_str s o prop val).2 o prop =
        some val.m_value ∧
      (set_property_idx s o idx val).1 = true ∧
      JS_GetPropertyUint32 (set_property_idx s o idx val).2 o idx =
        val.m_value) := by
  constructor
  · intro h
    have r := set_property_refuses_when_not_extensible s o prop idx val h
    exact ⟨r.1, r.2, by rw [r.1]⟩
  · intro h
    exact set_property_writes_when_extensible s o prop idx val h

/-- A concrete heap for the claim C5 witness: object 0 is extensible,
object 1 is not, and object 2 is the value being written. -/
def c5state : PState :=
  { propsS := fun _ _ => none,
    propsI := fun _ _ => none,
    extensible := fun o => o = 0,
    refcount := fun o => if o ≤ 2 then 1 else 0,
    releases := fun _ => 0,
    pendingExc := false }

/-- Witness for claim C5 at the concrete heap: writes to the
non-extensible object 1 are refused without mutation, writes to the
extensible object 0 are performed and observable. -/
theorem set_property_extensibility_witness :
    (is_extensible c5state 1 = false ∧
      set_property_str c5state 1 "k" ⟨.vobj 2⟩ = (false, c5state) ∧
      set_property_idx c5state 1 4 ⟨.vobj 2⟩ = (false, c5state) ∧
      get_property_str (set_property_str c5state 1 "k" ⟨.vobj 2⟩).2 1 "k" =
        get_property_str c5state 1 "k") ∧
    (is_extensible c5state 0 = true ∧
      (set_property_str c5state 0 "k" ⟨.vobj 2⟩).1 = true ∧
      get_property_str (set_property_str c5state 0 "k" ⟨.vobj 2⟩).2 0 "k" =
        some (.vobj 2) ∧
      (set_property_idx c5state 0 4 ⟨.vobj 2⟩).1 = true ∧
      JS_GetPropertyUint32 (set_property_idx c5state 0 4 ⟨.vobj 2⟩).2 0 4 =
        .vobj 2) :=
  ⟨⟨by rfl,
    (set_property_extensibility c5state 1 "k" 4 ⟨.vobj 2⟩).1 (by rfl)⟩,
   ⟨by rfl,
    (set_property_extensibility c5state 0 "k" 4 ⟨.vobj 2⟩).2 (by rfl)⟩⟩

/-- Claim C10: set_property leaves the argument handle's ownership
intact. Across a call set_property(key, val) with val holding object w,
the call itself performs no release of w (and never decrements w's
refcount; when the write happens the refcount grows by exactly the one
duplicate the stored reference accounts for), and after the call the
handle's own destructor releases w exactly once. Stated for both the
name-keyed and the index-keyed overload. -/
theorem set_property_preserves_argument_ownership (s : PState) (o : Nat)
    (prop : String) (idx : Nat) (w : Nat) :
    ((set_property_str s o prop ⟨.vobj w⟩).2.releases w = s.releases w ∧
      (set_property_str s o prop ⟨.vobj w⟩).2.refcount w =
        s.refcount w + (if s.extensible o then 1 else 0) ∧
      (Value.destroy (set_property_str s o prop ⟨.vobj w⟩).2
          ⟨.vobj w⟩).releases w = s.releases w + 1 ∧
      (Value.destroy (set_property_str s o prop ⟨.vobj w⟩).2
          ⟨.vobj w⟩).refcount w =
        s.refcount w + (if s.extensible o then 1 else 0) - 1) ∧
    ((set_property_idx s o idx ⟨.vobj w⟩).2.releases w = s.releases w ∧
      (set_property_idx s o idx ⟨.vobj w⟩).2.refcount w =
        s.refcount w + (if s.extensible o then 1 else 0) ∧
      (Value.destroy (set_property_idx s o idx ⟨.vobj w⟩).2
          ⟨.vobj w⟩).releases w = s.releases w + 1 ∧
      (Value.destroy (set_property_idx s o idx ⟨.vobj w⟩).2
          ⟨.vobj w⟩).refcount w =
        s.refcount w + (if s.extensible o then 1 else 0) - 1) := by
  by_cases h : s.extensible o <;>
    simp [set_property_str, set_property_idx, is_extensible, h,
      JS_SetPropertyStr, JS_SetPropertyUint32, dupV, Value.destroy, freeV]

end QjsProp

namespace QjsRC

/-- Engine heap state for the reference-counting / closure-bridge model.
Engine values are identified by Nat ids below nextId; heap-allocated host
closures by Nat ids below nextClosure. For each value the state tracks its
reference count, whether it is an instance of the closure-carrier native
class, its carrier slot (the opaque pointer holding the heap closure, set
by the closure bridge), the bound-data value of a native function object
and its magic discriminant. For each host closure it tracks whether the
heap allocation is live and how many times the carrier finalizer has
deleted it. callLog records every execution of a registered host closure
with the this value, the argument ids and the magic it received. ctxRefs
is the reference count of the one execution context in play. -/
@[ext]
structure Engine where
  nextId : Nat
  nextClosure : Nat
  refcount : Nat → Nat
  isCarrier : Nat → Bool
  payload : Nat → Option Nat
  funcData : Nat → Option Nat
  funcMagic : Nat → Int
  closureAlive : Nat → Bool
  closureDeleted : Nat → Nat
  callLog : List (Nat × Nat × List Nat × Int)
  ctxRefs : Nat

/-- Modelled from the spec: JS_DupValue is missing from src/; duplicating
a reference increments the referent's count. -/
def JS_DupValue (e : Engine) (v : Nat) : Engine :=
  { e with refcount := fun i =>
      if i = v then e.refcount i + 1 else e.refcount i }

/-- Overwrite one reference count (helper for the release primitive). -/
def setRC (e : Engine) (v n : Nat) : Engine :=
  { e with refcount := fun i => if i = v then n else e.refcount i }

/-- The destructor step of the heap closure: delete the host allocation
and count the deletion, so a double delete is observable as a count
above one. -/
def deleteClosure (e : Engine) (c : Nat) : Engine :=
  { e with
    closureAlive := fun j => if j = c then false else e.closureAlive j,
    closureDeleted := fun j =>
      if j = c then e.closureDeleted j + 1 else e.closureDeleted j }

/-- The closure-carrier class finalizer the binding registers,
quickjs.cpp lines 181-185: read the carrier slot, cast it to a host
closure pointer and delete it. -/
def closureFinalizer (e : Engine) (v : Nat) : Engine :=
  match e.payload v with
  | some c => deleteClosure e c
  | none => e

/-- Modelled from the spec: when a value's last reference is released the
engine runs the finalizer of its native class; only the closure-carrier
class has one (the no-op GC-mark callback is dropped). -/
def finalizeValue (e : Engine) (v : Nat) : Engine :=
  if e.isCarrier v then closureFinalizer e v else e

/-- Modelled from the spec: JS_FreeValue for a value that is not a native
function object: decrement the count, and at zero run the class
finalizer. -/
def freePlain (e : Engine) (v : Nat) : Engine :=
  if e.refcount v = 1 then finalizeValue (setRC e v 0) v
  else setRC e v (e.refcount v - 1)

/-- Modelled from the spec: JS_FreeValue is missing from src/. Releasing
the last reference of a native function object releases the bound-data
value it owns (the carrier); the carrier's own finalizer only deletes the
host closure and frees no further engine value, so the recursion stops
after one step. -/
def JS_FreeValue (e : Engine) (v : Nat) : Engine :=
  if e.refcount v = 1 then
    match e.funcData v with
    | some d => freePlain (setRC e v 0) d
    | none => finalizeValue (setRC e v 0) v
  else setRC e v (e.refcount v - 1)

/-- Duplicate a list of values in order. -/
def dupAll (e : Engine) (L : List Nat) : Engine :=
  match L with
  | [] => e
  | a :: L => dupAll (JS_DupValue e a) L

/-- Release a list of values in order (a vector of handles being
destroyed element by element). -/
def freeAll (e : Engine) (L : List Nat) : Engine :=
  match L with
  | [] => e
  | a :: L => freeAll (JS_FreeValue e a) L

/-- Modelled from the spec: JS_DupContext is missing from src/. -/
def JS_DupContext (e : Engine) : Engine :=
  { e with ctxRefs := e.ctxRefs + 1 }

/-- Modelled from the spec: JS_FreeContext is missing from src/; the
trampoline's thin Context wrapper releases its duplicated context
reference on destruction (quickjs.cpp lines 207-211). -/
def JS_FreeContext (e : Engine) : Engine :=
  { e with ctxRefs := e.ctxRefs - 1 }

/-- A qjs::Value handle: the id of the engine value it owns (the
m_context member is the one context of this model). -/
structure Value where
  m_value : Nat
deriving DecidableEq, Repr

/-- qjs::Value::Value(const Value&), quickjs.cpp lines 10-13: the copy
holds a duplicated reference. -/
def Value.copy (e : Engine) (val : Value) : Value × Engine :=
  (⟨val.m_value⟩, JS_DupValue e val.m_value)

/-- qjs::Value::~Value, quickjs.cpp lines 15-17: release the held
reference. -/
def Value.destroy (e : Engine) (v : Value) : Engine :=
  JS_FreeValue e v.m_value

/-- qjs::Value::operator=(const Value&), quickjs.cpp lines 19-23: the
target takes a duplicated reference to the source's value; the reference
the target held before is overwritten without a release. -/
def Value.assign (e : Engine) (tgt src : Value) : Value × Engine :=
  (⟨src.m_value⟩, JS_DupValue e src.m_value)

/-- The heap-allocating copy of the host closure, quickjs.cpp line 226
(auto fn_ = new Function(fn)). -/
def allocClosure (e : Engine) : Nat × Engine :=
  (e.nextClosure,
   { e with nextClosure := e.nextClosure + 1,
            closureAlive := fun j =>
              if j = e.nextClosure then true else e.closureAlive j })

/-- Modelled from the spec: JS_NewObjectClass is missing from src/; it
creates a fresh instance of the carrier class holding one reference. -/
def JS_NewObjectClass (e : Engine) : Nat × Engine :=
  (e.nextId,
   { e with nextId := e.nextId + 1,
            refcount := fun i =>
              if i = e.nextId then 1 else e.refcount i,
            isCarrier := fun i =>
              if i = e.nextId then true else e.isCarrier i })

/-- Modelled from the spec: JS_SetOpaque is missing from src/; it stores
the host closure pointer in the carrier instance's slot (quickjs.cpp line
230). -/
def JS_SetCarrierSlot (e : Engine) (v c : Nat) : Engine :=
  { e with payload := fun i => if i = v then some c else e.payload i }

/-- Modelled from the spec: JS_NewCFunctionData is missing from src/; it
registers a native function value binding the carrier as its one piece of
bound data, and the engine's reference counting then keeps the carrier
alive exactly as long as the function value: the function value takes
over the registering caller's carrier reference. The malloc-ed one-entry
JSValue array of quickjs.cpp lines 228-229 is represented by the carrier
id itself. -/
def JS_NewCFunctionData (e : Engine) (magic : Int) (d : Nat) :
    Nat × Engine :=
  (e.nextId,
   { e with nextId := e.nextId + 1,
            refcount := fun i =>
              if i = e.nextId then 1 else e.refcount i,
            funcData := fun i =>
              if i = e.nextId then some d else e.funcData i,
            funcMagic := fun i =>
              if i = e.nextId then magic else e.funcMagic i })

/-- Modelled from the spec: a representative instrumented host closure.
Executing it records the invocation it received (closure id, this,
arguments, magic) and returns a handle produced by copying the this
handle, the bridge being indifferent to the closure's body. -/
def closureRun (e : Engine) (c : Nat) (thisv : Nat) (args : List Nat)
    (magic : Int) : Value × Engine :=
  Value.copy
    { e with callLog := e.callLog ++ [(c, thisv, args, magic)] }
    ⟨thisv⟩

/-- The fixed-signature trampoline registered by new_c_function,
quickjs.cpp lines 232-243: reconstruct a thin Context wrapper by
duplicating the context reference, reconstruct the this handle and each
argument handle by duplicating, read the closure pointer from the bound
carrier's slot, execute the closure, return a newly duplicated reference
to its result; then the wrappers' destructors run in reverse construction
order (the local result handle, the argument vector front to back, the
this handle, the Context wrapper). -/
def trampoline (e : Engine) (f thisv : Nat) (args : List Nat) :
    Nat × Engine :=
  let e1 := JS_DupContext e
  let e2 := JS_DupValue e1 thisv
  let e3 := dupAll e2 args
  let c := (e3.payload ((e3.funcData f).getD 0)).getD 0
  let r := closureRun e3 c thisv args (e3.funcMagic f)
  let e5 := JS_DupValue r.2 r.1.m_value
  let e6 := JS_FreeValue e5 r.1.m_value
  let e7 := freeAll e6 args
  let e8 := JS_FreeValue e7 thisv
  let e9 := JS_FreeContext e8
  (r.1.m_value, e9)

/-- Modelled from the spec: JS_Call is missing from src/; calling a
native function value executes the registered trampoline on borrowed
this and argument references and hands back one owned result
reference. -/
def JS_Call (e : Engine) (f thisv : Nat) (args : List Nat) :
    Nat × Engine :=
  trampoline e f thisv args

/-- qjs::Value::call, quickjs.cpp lines 95-103: marshal the argument
handles into a contiguous array of borrowed engine values (no
duplication), invoke the engine call primitive, wrap the newly owned
result. -/
def Value.call (e : Engine) (v this_obj : Value) (args : List Value) :
    Value × Engine :=
  let c_args := args.map Value.m_value
  let r := JS_Call e v.m_value this_obj.m_value c_args
  (⟨r.1⟩, r.2)

/-- qjs::Context::new_c_function, quickjs.cpp lines 225-249: heap-copy
the closure, create a carrier instance, store the closure pointer in its
slot, register the native function value with the carrier bound as data,
and wrap the function value as an owned handle. -/
def Context.new_c_function (e : Engine) (magic : Int) : Value × Engine :=
  let fn := allocClosure e
  let data := JS_NewObjectClass fn.2
  let e3 := JS_SetCarrierSlot data.2 data.1 fn.1
  let value := JS_NewCFunctionData e3 magic data.1
  (⟨value.1⟩, value.2)

/-- qjs::Runtime_Ref::run_gc, quickjs.cpp lines 151-153. Modelled from
the spec: JS_RunGC is missing from src/; in this reference-counting model
every value is finalized at its last release, so a forced collection pass
finds nothing further to free. -/
def run_gc (e : Engine) : Engine := e

/-- The heap for the claim C2 failing input: values 0 (referent A) and 1
(referent B), each with exactly one reference, owned by the handles hA
and gB respectively. -/
def c2heap : Engine :=
  { nextId := 2, nextClosure := 0,
    refcount := fun i => if i < 2 then 1 else 0,
    isCarrier := fun _ => false, payload := fun _ => none,
    funcData := fun _ => none, funcMagic := fun _ => 0,
    closureAlive := fun _ => false, closureDeleted := fun _ => 0,
    callLog := [], ctxRefs := 1 }

/-- The claim C2 failing sequence: gB is assigned over with hA, then both
handles are destroyed. -/
def c2final : Engine :=
  let a := Value.assign c2heap ⟨1⟩ ⟨0⟩
  let e2 := Value.destroy a.2 a.1
  Value.destroy e2 ⟨0⟩

/-- Claim C2 fails on the code: after assigning handle hA (owning
referent A = 0) over handle gB (owning referent B = 1) and destroying
both handles, referent A's count is balanced back to zero but referent
B's count is still 1 with no handle left holding it: copy assignment
overwrote gB's reference without releasing it, so the release the claim
requires for the assigned-over reference never happens and B leaks. -/
theorem assign_over_leaks :
    c2heap.refcount 1 = 1 ∧ c2final.refcount 0 = 0 ∧
    c2final.refcount 1 = 1 := by
  refine ⟨rfl, ?_, ?_⟩ <;> rfl

theorem dupAll_eq (L : List Nat) (e : Engine) :
    dupAll e L =
      { e with refcount := fun i => e.refcount i + L.count i } := by
  induction L generalizing e with
  | nil => ext <;> simp [dupAll]
  | cons a L ih =>
      rw [dupAll, ih]
      ext i <;> simp [JS_DupValue, List.count_cons]
      by_cases h : i = a <;> simp [h] <;> omega

theorem free_decrement (e : Engine) (a : Nat) (h : 2 ≤ e.refcount a) :
    JS_FreeValue e a =
      { e with refcount := fun i =>
          if i = a then e.refcount i - 1 else e.refcount i } := by
  rw [JS_FreeValue, if_neg (by omega)]
  ext i <;> simp [setRC]
  by_cases hia : i = a
  · subst hia; simp
  · simp [hia]

theorem freeAll_decr (L : List Nat) (e : Engine)
    (h : ∀ a ∈ L, L.count a + 1 ≤ e.refcount a) :
    freeAll e L =
      { e with refcount := fun i => e.refcount i - L.count i } := by
  induction L generalizing e with
  | nil => ext <;> simp [freeAll]
  | cons a L ih =>
      have ha := h a (List.mem_cons_self a L)
      rw [List.count_cons_self] at ha
      have hstep := free_decrement e a (by omega)
      have hrest : ∀ b ∈ L, L.count b + 1 ≤ (JS_FreeValue e a).refcount b := by
        intro b hb
        have hb2 := h b (List.mem_cons_of_mem a hb)
        rw [List.count_cons] at hb2
        rw [hstep]
        by_cases hba : b = a
        · subst hba; simp at hb2 ⊢; omega
        · simp [hba] at hb2 ⊢; omega
      rw [freeAll, ih (JS_FreeValue e a) hrest, hstep]
      ext i <;> simp [List.count_cons]
      by_cases hia : i = a
      · subst hia; simp; omega
      · simp [hia, Ne.symm hia]

theorem free_dup_cancel (e : Engine) (a : Nat) (h : 1 ≤ e.refcount a) :
    JS_FreeValue (JS_DupValue e a) a = e := by
  rw [free_decrement (JS_DupValue e a) a (by simp [JS_DupValue]; omega)]
  ext i <;> simp [JS_DupValue]
  by_cases hia : i = a
  · subst hia; simp
  · simp [hia]

/-- The net effect of one trampoline execution (quickjs.cpp lines
232-243) on a state in which f is a native function object bound to a
carrier d whose slot holds the closure c, and this and every argument are
live values: the registered closure is executed exactly once with exactly
the this value, the argument list and the magic of f, the caller receives
one new owned reference to the result (here the this value, per the
representative closure), and nothing else changes. -/
theorem trampoline_spec (e : Engine) (f thisv : Nat) (args : List Nat)
    (d c : Nat) (hfd : e.funcData f = some d) (hpl : e.payload d = some c)
    (hthis : 1 ≤ e.refcount thisv)
    (hargs : ∀ a ∈ args, 1 ≤ e.refcount a) :
    trampoline e f thisv args =
      (thisv,
       { e with
         callLog := e.callLog ++ [(c, thisv, args, e.funcMagic f)],
         refcount := fun i =>
           if i = thisv then e.refcount i + 1 else e.refcount i }) := by
  simp only [trampoline, closureRun, Value.copy, dupAll_eq, JS_DupContext,
    JS_DupValue, JS_FreeContext, hfd, hpl, Option.getD_some]
  rw [free_decrement ⟨_, _, _, _, _, _, _, _, _, _, _⟩ thisv]
  rw [freeAll_decr]
  rw [free_decrement]
  · simp only [Prod.mk.injEq]
    refine ⟨trivial, ?_⟩
    ext i <;> simp
    by_cases hi : i = thisv <;> simp [hi] <;> omega
  · simp
  · rw [free_decrement ⟨_, _, _, _, _, _, _, _, _, _, _⟩ thisv]
    · intro a ha
      have h1 := hargs a ha
      by_cases ha2 : a = thisv <;> simp [ha2] <;> omega
    · simp
  · rw [free_decrement ⟨_, _, _, _, _, _, _, _, _, _, _⟩ thisv]
    rw [freeAll_decr]
    · simp
      omega
    · intro a ha
      have h1 := hargs a ha
      by_cases ha2 : a = thisv <;> simp [ha2] <;> omega
    · simp

/-- The full closure-lifetime scenario of claim C1: register a host
closure via new_c_function (the host keeps only the returned function
handle), invoke the function value on a this value and an argument list,
drop the result handle, release the function value, and run a collection
pass. The first component is the state right after the invocation, the
second the state after the release and the collection pass. -/
def bridgeScenario (e : Engine) (thisv : Nat) (args : List Nat)
    (magic : Int) : Engine × Engine :=
  let p := Context.new_c_function e magic
  let q := Value.call p.2 p.1 ⟨thisv⟩ (args.map Value.mk)
  let e3 := Value.destroy q.2 q.1
  let e4 := Value.destroy e3 p.1
  (q.2, run_gc e4)

/-- Claim C1: for a host closure registered via new_c_function with only
the function handle retained, invoking the function value executes the
registered closure exactly once with the correct this value, argument
list and magic; the carrier stays alive while the function value is
alive; and once the function value is released and a collection pass has
run, the carrier is dead and the closure finalizer has deleted the heap
closure exactly once (no double free, no leak); the this and argument
references are left balanced. -/
theorem new_c_function_closure_lifetime (e : Engine) (thisv : Nat)
    (args : List Nat) (magic : Int)
    (hthis : 1 ≤ e.refcount thisv) (hthis1 : thisv ≠ e.nextId)
    (hthis2 : thisv ≠ e.nextId + 1)
    (hargs : ∀ a ∈ args,
      1 ≤ e.refcount a ∧ a ≠ e.nextId ∧ a ≠ e.nextId + 1) :
    (bridgeScenario e thisv args magic).1.callLog =
      e.callLog ++ [(e.nextClosure, thisv, args, magic)] ∧
    1 ≤ (bridgeScenario e thisv args magic).1.refcount e.nextId ∧
    (bridgeScenario e thisv args magic).2.closureDeleted e.nextClosure =
      e.closureDeleted e.nextClosure + 1 ∧
    (bridgeScenario e thisv args magic).2.closureAlive e.nextClosure =
      false ∧
    (bridgeScenario e thisv args magic).2.refcount e.nextId = 0 ∧
    (bridgeScenario e thisv args magic).2.refcount thisv =
      e.refcount thisv := by
  have hmap : (args.map Value.mk).map Value.m_value = args := by
    rw [List.map_map]
    show List.map id args = args
    exact List.map_id args
  simp only [bridgeScenario, Context.new_c_function, allocClosure,
    JS_NewObjectClass, JS_SetCarrierSlot, JS_NewCFunctionData, Value.call,
    JS_Call, Value.destroy, run_gc, hmap]
  rw [trampoline_spec _ _ _ _ e.nextId e.nextClosure]
  case hfd => simp
  case hpl => simp
  case hthis => simp [hthis1, hthis2]; omega
  case hargs =>
    intro a ha
    obtain ⟨h1, h2, h3⟩ := hargs a ha
    simp [h2, h3]
    omega
  rw [free_decrement _ thisv]
  · have hn1 : e.nextId + 1 ≠ e.nextId := by omega
    have hn2 : e.nextId ≠ e.nextId + 1 := by omega
    have ht1 : e.nextId ≠ thisv := Ne.symm hthis1
    have ht2 : e.nextId + 1 ≠ thisv := Ne.symm hthis2
    simp [JS_FreeValue, freePlain, finalizeValue, closureFinalizer,
      deleteClosure, setRC, hthis1, hthis2, ht1, ht2, hn1, hn2]
  · simp [hthis1, hthis2]
    omega

/-- A concrete heap for the claim C1 witness: two live plain values 0 and
1, no closures yet, fresh ids from 2. -/
def witnessEngine : Engine :=
  { nextId := 2, nextClosure := 0,
    refcount := fun i => if i < 2 then 1 else 0,
    isCarrier := fun _ => false, payload := fun _ => none,
    funcData := fun _ => none, funcMagic := fun _ => 0,
    closureAlive := fun _ => false, closureDeleted := fun _ => 0,
    callLog := [], ctxRefs := 1 }

/-- Witness for claim C1 at the concrete heap: this value 0, arguments
[1, 0], magic 5. -/
theorem new_c_function_closure_lifetime_witness :
    (1 ≤ witnessEngine.refcount 0 ∧ (0 : Nat) ≠ witnessEngine.nextId ∧
      (0 : Nat) ≠ witnessEngine.nextId + 1 ∧
      ∀ a ∈ [1, 0], 1 ≤ witnessEngine.refcount a ∧
        a ≠ witnessEngine.nextId ∧ a ≠ witnessEngine.nextId + 1) ∧
    ((bridgeScenario witnessEngine 0 [1, 0] 5).1.callLog =
      witnessEngine.callLog ++ [(witnessEngine.nextClosure, 0, [1, 0], 5)] ∧
    1 ≤ (bridgeScenario witnessEngine 0 [1, 0] 5).1.refcount
      witnessEngine.nextId ∧
    (bridgeScenario witnessEngine 0 [1, 0] 5).2.closureDeleted
        witnessEngine.nextClosure =
      witnessEngine.closureDeleted witnessEngine.nextClosure + 1 ∧
    (bridgeScenario witnessEngine 0 [1, 0] 5).2.closureAlive
      witnessEngine.nextClosure = false ∧
    (bridgeScenario witnessEngine 0 [1, 0] 5).2.refcount
      witnessEngine.nextId = 0 ∧
    (bridgeScenario witnessEngine 0 [1, 0] 5).2.refcount 0 =
      witnessEngine.refcount 0) :=
  ⟨⟨by decide, by decide, by decide, by decide⟩,
   new_c_function_closure_lifetime witnessEngine 0 [1, 0] 5 (by decide)
     (by decide) (by decide) (by decide)⟩

end QjsRC
